import Mathlib

/-!
Verification of the DX heating-coil defrost model (`DXHeatingCoil.py`).

The source is a single-pass engineering calculation: correction-curve
polynomials, a defrost model (`DefrostCalc`) and a performance evaluator
branching on whether defrost is active.  All arithmetic is embedded over
the rationals; the external psychrometric library (psychrolib) is
abstracted as a record of functions supplied to each evaluation.
-/

namespace DXHeatingCoil

/-- `TotCapTempModFac(Tdb)` from the source: cubic polynomial with
coefficients (0.758746, 0.027626, 0.000148716, 0.0000034992). -/
def TotCapTempModFac (Tdb : ℚ) : ℚ :=
  let a : ℚ := 0.758746
  let b : ℚ := 0.027626
  let c : ℚ := 0.000148716
  let d : ℚ := 0.0000034992
  a + b * Tdb + c * Tdb ^ 2 + d * Tdb ^ 3

/-- `TotCapFlowModFac(FF)` from the source: cubic polynomial with
coefficients (0.84, 0.16, 0, 0). -/
def TotCapFlowModFac (FF : ℚ) : ℚ :=
  let a : ℚ := 0.84
  let b : ℚ := 0.16
  let c : ℚ := 0.0
  let d : ℚ := 0.0
  a + b * FF + c * FF ^ 2 + d * FF ^ 3

/-- `EERTempModFac(Tdb)` from the source: cubic polynomial with
coefficients (1.19248, -0.0300438, 0.00103745, -0.000023328). -/
def EERTempModFac (Tdb : ℚ) : ℚ :=
  let a : ℚ := 1.19248
  let b : ℚ := -0.0300438
  let c : ℚ := 0.00103745
  let d : ℚ := -0.000023328
  a + b * Tdb + c * Tdb ^ 2 + d * Tdb ^ 3

/-- `EERFlowModFac(FF)` from the source: cubic polynomial with
coefficients (1.3824, -0.4336, 0.0512, 0). -/
def EERFlowModFac (FF : ℚ) : ℚ :=
  let a : ℚ := 1.3824
  let b : ℚ := -0.4336
  let c : ℚ := 0.0512
  let d : ℚ := 0.0
  a + b * FF + c * FF ^ 2 + d * FF ^ 3

/-- The part-load factor curve `PLF_curve(PLR) = 0.85 + 0.15 * PLR`. -/
def PLF_curve (PLR : ℚ) : ℚ := 0.85 + 0.15 * PLR

/-- `DefrostEIRTempModFac(Twbi, Tdb)` from the source: bivariate
quadratic with coefficients (1, 0, 0, 0, 0, 0). -/
def DefrostEIRTempModFac (Twbi Tdb : ℚ) : ℚ :=
  let a : ℚ := 1
  let b : ℚ := 0
  let c : ℚ := 0
  let d : ℚ := 0
  let e : ℚ := 0
  let f : ℚ := 0
  a + b * Twbi + c * Twbi ^ 2 + d * Tdb + e * Tdb ^ 2 + f * Twbi * Tdb

/-- The external psychrometric provider (psychrolib). The source calls
`GetHumRatioFromTWetBulb(Tdb, Twb, P)` and `GetSatHumRatio(Tdb, P)`;
out of scope for the repository, so kept abstract. -/
structure PsychroProvider where
  GetHumRatioFromTWetBulb : ℚ → ℚ → ℚ → ℚ
  GetSatHumRatio : ℚ → ℚ → ℚ

/-- The defrost strategy argument `DemandDefrost` of `DefrostCalc`:
either the string "OnDemand" or "Timed" in the source. -/
inductive DefrostStrategy
  | OnDemand : DefrostStrategy
  | Timed : DefrostStrategy
deriving DecidableEq

/-- Outdoor coil surface temperature, line 47 of the source:
`OutdoorCoilT = 0.82 * Tdbo - 8.589`. -/
def OutdoorCoilT (Tdbo : ℚ) : ℚ := 0.82 * Tdbo - 8.589

/-- The standard atmospheric pressure constant used by `DefrostCalc`. -/
def OutdoorPress : ℚ := 98600

/-- The frost-driving humidity differential, line 50 of the source:
`OutdoorCoildw = max(1e-6, OutdoorHumRat - GetSatHumRatio(OutdoorCoilT, P))`. -/
def OutdoorCoildw (psy : PsychroProvider) (Tdbo Twbo : ℚ) : ℚ :=
  let OutdoorHumRat := psy.GetHumRatioFromTWetBulb Tdbo Twbo OutdoorPress
  max 1e-6 (OutdoorHumRat - psy.GetSatHumRatio (OutdoorCoilT Tdbo) OutdoorPress)

/-- `DefrostCalc(Tdbo, Twbo, DemandDefrost, tfrac_defrost)` from the
source, returning the triple (heating-capacity multiplier, input-power
multiplier, defrost time fraction). -/
def DefrostCalc (psy : PsychroProvider) (Tdbo Twbo : ℚ)
    (DemandDefrost : DefrostStrategy) (tfrac_defrost : Option ℚ) :
    ℚ × ℚ × ℚ :=
  let dw := OutdoorCoildw psy Tdbo Twbo
  match DemandDefrost with
  | DefrostStrategy.OnDemand =>
      let tfrac := 1 / (1 + 0.01446 / dw)
      (0.875 * (1 - tfrac), 0.954 * (1 - tfrac), tfrac)
  | DefrostStrategy.Timed =>
      let tfrac := tfrac_defrost.getD 0.058333
      (0.909 - 107.33 * dw, 0.9 - 36.45 * dw, tfrac)

/-- The quantities computed by the top-level evaluation (lines 80-98). -/
structure EvalResult where
  Heating_capacity_multiplier : ℚ
  Input_Power_Multiplier : ℚ
  Q_total : ℚ
  PLR : ℚ
  PLF : ℚ
  RTF : ℚ
  P_heating : ℚ
  P_defrost : ℚ
deriving DecidableEq

/-- The defrost-active branch (lines 81-89 of the source), taken when
`OAT <= OAT_max_defrost`.  The source always calls `DefrostCalc` with
the OnDemand strategy here. -/
def evalDefrostActive (psy : PsychroProvider)
    (OAT Outdoor_WBT Indoor_WBT Delivered_Load Q_total_rated COP_rated : ℚ) :
    EvalResult :=
  let d := DefrostCalc psy OAT Outdoor_WBT DefrostStrategy.OnDemand none
  let Q_total := Q_total_rated * TotCapTempModFac OAT * TotCapFlowModFac 1 * d.1
  let Q_defrost := 0.01 * d.2.2 * (7.222 - OAT) * (Q_total_rated / 1.01667)
  let PLR0 := Delivered_Load / (Q_total * 60)
  let PLR := min 1.0 (PLR0 + Q_defrost / Q_total)
  let PLF := PLF_curve PLR
  let RTF := min 1 (PLR / PLF)
  let P_defrost :=
    DefrostEIRTempModFac Indoor_WBT OAT * (Q_total_rated / 1.01667) * d.2.2 * RTF
  let P_heating :=
    1 / COP_rated * Q_total * EERTempModFac OAT * EERFlowModFac 1 * d.2.1 * RTF
  { Heating_capacity_multiplier := d.1
    Input_Power_Multiplier := d.2.1
    Q_total := Q_total
    PLR := PLR
    PLF := PLF
    RTF := RTF
    P_heating := P_heating
    P_defrost := P_defrost }

/-- The defrost-inactive branch (lines 91-98 of the source), taken when
`OAT > OAT_max_defrost`: both multipliers are set to unity, `P_defrost`
is zero, and the PLR is not clamped (only RTF is). -/
def evalDefrostInactive
    (OAT Delivered_Load Q_total_rated COP_rated : ℚ) : EvalResult :=
  let Input_Power_Multiplier : ℚ := 1
  let Heating_capacity_multiplier : ℚ := 1
  let Q_total :=
    Q_total_rated * TotCapTempModFac OAT * TotCapFlowModFac 1 *
      Heating_capacity_multiplier
  let PLR := Delivered_Load / (Q_total * 60)
  let PLF := PLF_curve PLR
  let RTF := min 1 (PLR / PLF)
  let P_heating :=
    1 / COP_rated * Q_total * EERTempModFac OAT * EERFlowModFac 1 *
      Input_Power_Multiplier * RTF
  { Heating_capacity_multiplier := Heating_capacity_multiplier
    Input_Power_Multiplier := Input_Power_Multiplier
    Q_total := Q_total
    PLR := PLR
    PLF := PLF
    RTF := RTF
    P_heating := P_heating
    P_defrost := 0 }

/-- The top-level conditional (line 80 of the source):
`if OAT <= OAT_max_defrost` selects the defrost-active branch, else the
defrost-inactive branch. -/
def evaluate (psy : PsychroProvider)
    (OAT Outdoor_WBT Indoor_WBT Delivered_Load
      OAT_max_defrost Q_total_rated COP_rated : ℚ) : EvalResult :=
  if OAT ≤ OAT_max_defrost then
    evalDefrostActive psy OAT Outdoor_WBT Indoor_WBT Delivered_Load
      Q_total_rated COP_rated
  else
    evalDefrostInactive OAT Delivered_Load Q_total_rated COP_rated

/-- A concrete psychrometric provider used for witnesses and
counterexamples: constant humidity ratios. -/
def psyConst (hum sat : ℚ) : PsychroProvider :=
  { GetHumRatioFromTWetBulb := fun _ _ _ => hum
    GetSatHumRatio := fun _ _ => sat }

end DXHeatingCoil

namespace DXHeatingCoil

/-- The humidity differential is at least the epsilon floor. -/
lemma OutdoorCoildw_ge_eps (psy : PsychroProvider) (Tdbo Twbo : ℚ) :
    (1e-6 : ℚ) ≤ OutdoorCoildw psy Tdbo Twbo := by
  unfold OutdoorCoildw
  exact le_max_left _ _

/-- The humidity differential is strictly positive. -/
lemma OutdoorCoildw_pos (psy : PsychroProvider) (Tdbo Twbo : ℚ) :
    0 < OutdoorCoildw psy Tdbo Twbo :=
  lt_of_lt_of_le (by norm_num) (OutdoorCoildw_ge_eps psy Tdbo Twbo)

/-- For a positive humidity differential, the OnDemand defrost time
fraction `1 / (1 + 0.01446 / dw)` lies strictly between 0 and 1. -/
lemma onDemand_tfrac_mem (dw : ℚ) (hdw : 0 < dw) :
    0 < 1 / (1 + 0.01446 / dw) ∧ 1 / (1 + 0.01446 / dw) < 1 := by
  have hq : 0 < (0.01446 : ℚ) / dw := div_pos (by norm_num) hdw
  have hden : (1 : ℚ) < 1 + 0.01446 / dw := by linarith
  constructor
  · exact one_div_pos.mpr (by linarith)
  · rw [div_lt_one (by linarith)]
    exact hden

/-- Claim C1: with the OnDemand strategy, `DefrostCalc` returns
tfrac = 1 / (1 + 0.01446/dw) with dw the floored humidity differential,
capacity multiplier 0.875·(1 − tfrac) and power multiplier
0.954·(1 − tfrac), for every dry-bulb/wet-bulb input. -/
theorem DefrostCalc_onDemand_formula (psy : PsychroProvider)
    (Tdbo Twbo : ℚ) (tfrac_defrost : Option ℚ) :
    DefrostCalc psy Tdbo Twbo DefrostStrategy.OnDemand tfrac_defrost =
      (0.875 * (1 - 1 / (1 + 0.01446 / OutdoorCoildw psy Tdbo Twbo)),
       0.954 * (1 - 1 / (1 + 0.01446 / OutdoorCoildw psy Tdbo Twbo)),
       1 / (1 + 0.01446 / OutdoorCoildw psy Tdbo Twbo)) := rfl

/-- Claim C9: with its default coefficients (1,0,0,0,0,0) the defrost
EIR temperature modifier is constantly 1. -/
theorem DefrostEIRTempModFac_eq_one (Twbi Tdb : ℚ) :
    DefrostEIRTempModFac Twbi Tdb = 1 := by
  simp [DefrostEIRTempModFac]

/-- Claim C10: the OnDemand result of `DefrostCalc` does not depend on
the caller-supplied `tfrac_defrost` argument. -/
theorem DefrostCalc_onDemand_ignores_tfrac (psy : PsychroProvider)
    (Tdbo Twbo : ℚ) (t1 t2 : Option ℚ) :
    DefrostCalc psy Tdbo Twbo DefrostStrategy.OnDemand t1 =
      DefrostCalc psy Tdbo Twbo DefrostStrategy.OnDemand t2 := rfl

/-- Claim C6: with the Timed strategy, `DefrostCalc` returns the default
time fraction 0.058333 when none is supplied, and exactly the supplied
value otherwise. -/
theorem DefrostCalc_timed_tfrac (psy : PsychroProvider) (Tdbo Twbo v : ℚ) :
    (DefrostCalc psy Tdbo Twbo DefrostStrategy.Timed none).2.2 = 0.058333 ∧
      (DefrostCalc psy Tdbo Twbo DefrostStrategy.Timed (some v)).2.2 = v :=
  ⟨rfl, rfl⟩

/-- Claim C5: the humidity differential is floored at 1e-6, hence
positive and nonzero, so `0.01446 / dw` never divides by zero. -/
theorem OutdoorCoildw_floor (psy : PsychroProvider) (Tdbo Twbo : ℚ) :
    (1e-6 : ℚ) ≤ OutdoorCoildw psy Tdbo Twbo ∧
      0 < OutdoorCoildw psy Tdbo Twbo ∧
      OutdoorCoildw psy Tdbo Twbo ≠ 0 :=
  ⟨OutdoorCoildw_ge_eps psy Tdbo Twbo, OutdoorCoildw_pos psy Tdbo Twbo,
    ne_of_gt (OutdoorCoildw_pos psy Tdbo Twbo)⟩

/-- Claim C8: the part-load factor curve equals 0.85 + 0.15·PLR and is
monotonically non-decreasing over [0,1]. -/
theorem PLF_curve_monotone (p1 p2 : ℚ) (_h0 : 0 ≤ p1) (h12 : p1 ≤ p2)
    (_h1 : p2 ≤ 1) :
    PLF_curve p1 = 0.85 + 0.15 * p1 ∧ PLF_curve p1 ≤ PLF_curve p2 := by
  constructor
  · rfl
  · simp only [PLF_curve]
    linarith

/-- Witness for C8 at the concrete pair (0, 1). -/
theorem PLF_curve_monotone_witness :
    (0 : ℚ) ≤ 0 ∧ (0 : ℚ) ≤ 1 ∧ (1 : ℚ) ≤ 1 ∧
      (PLF_curve 0 = 0.85 + 0.15 * 0 ∧ PLF_curve 0 ≤ PLF_curve 1) :=
  ⟨by norm_num, by norm_num, by norm_num,
    PLF_curve_monotone 0 1 (by norm_num) (by norm_num) (by norm_num)⟩

/-- Claim C3: when the outdoor dry-bulb equals the max-defrost
temperature, the inclusive comparison selects the defrost-active branch. -/
theorem evaluate_boundary_active (psy : PsychroProvider)
    (OAT Outdoor_WBT Indoor_WBT Delivered_Load Q_total_rated COP_rated : ℚ) :
    evaluate psy OAT Outdoor_WBT Indoor_WBT Delivered_Load OAT
        Q_total_rated COP_rated =
      evalDefrostActive psy OAT Outdoor_WBT Indoor_WBT Delivered_Load
        Q_total_rated COP_rated := by
  simp [evaluate]

end DXHeatingCoil

namespace DXHeatingCoil

/-- Claim C4: strictly above the max-defrost temperature the evaluation
takes the defrost-inactive branch: defrost power 0, both multipliers 1,
and total capacity = rated × TotCapTempModFac(OAT) × TotCapFlowModFac(1). -/
theorem evaluate_inactive_above_threshold (psy : PsychroProvider)
    (OAT Outdoor_WBT Indoor_WBT Delivered_Load
      OAT_max_defrost Q_total_rated COP_rated : ℚ)
    (h : OAT_max_defrost < OAT) :
    (evaluate psy OAT Outdoor_WBT Indoor_WBT Delivered_Load
        OAT_max_defrost Q_total_rated COP_rated).P_defrost = 0 ∧
      (evaluate psy OAT Outdoor_WBT Indoor_WBT Delivered_Load
        OAT_max_defrost Q_total_rated COP_rated).Heating_capacity_multiplier = 1 ∧
      (evaluate psy OAT Outdoor_WBT Indoor_WBT Delivered_Load
        OAT_max_defrost Q_total_rated COP_rated).Input_Power_Multiplier = 1 ∧
      (evaluate psy OAT Outdoor_WBT Indoor_WBT Delivered_Load
        OAT_max_defrost Q_total_rated COP_rated).Q_total =
        Q_total_rated * TotCapTempModFac OAT * TotCapFlowModFac 1 := by
  have hn : ¬ OAT ≤ OAT_max_defrost := not_le.mpr h
  simp [evaluate, evalDefrostInactive, hn]

/-- Witness for C4 at OAT = 10 above the threshold 5. -/
theorem evaluate_inactive_above_threshold_witness :
    (5 : ℚ) < 10 ∧
      ((evaluate (psyConst 0 0) 10 1 12 100 5 1 3).P_defrost = 0 ∧
        (evaluate (psyConst 0 0) 10 1 12 100 5 1 3).Heating_capacity_multiplier = 1 ∧
        (evaluate (psyConst 0 0) 10 1 12 100 5 1 3).Input_Power_Multiplier = 1 ∧
        (evaluate (psyConst 0 0) 10 1 12 100 5 1 3).Q_total =
          1 * TotCapTempModFac 10 * TotCapFlowModFac 1) :=
  ⟨by norm_num,
    evaluate_inactive_above_threshold (psyConst 0 0) 10 1 12 100 5 1 3
      (by norm_num)⟩

/-- Counterexample to C2 as stated: in the defrost-inactive branch the
PLR is not clamped, and exceeds 1 at this concrete input. -/
theorem evaluate_inactive_PLR_exceeds_one :
    1 < (evaluate (psyConst 0 0) 10 1 12 1000000 5 1 3).PLR := by
  norm_num [evaluate, evalDefrostInactive, TotCapTempModFac, TotCapFlowModFac,
    PLF_curve]

/-- Claim C2 (amended): the PLR is clamped to ≤ 1 in the defrost-active
branch only; the RTF is clamped to ≤ 1 in both branches; and in both
branches RTF ≥ 0 whenever PLR ≥ 0 and PLF > 0. -/
theorem evaluate_clamps (psy : PsychroProvider)
    (OAT Outdoor_WBT Indoor_WBT Delivered_Load Q_total_rated COP_rated : ℚ) :
    (evalDefrostActive psy OAT Outdoor_WBT Indoor_WBT Delivered_Load
        Q_total_rated COP_rated).PLR ≤ 1 ∧
      (evalDefrostActive psy OAT Outdoor_WBT Indoor_WBT Delivered_Load
        Q_total_rated COP_rated).RTF ≤ 1 ∧
      (evalDefrostInactive OAT Delivered_Load Q_total_rated COP_rated).RTF ≤ 1 ∧
      (0 ≤ (evalDefrostActive psy OAT Outdoor_WBT Indoor_WBT Delivered_Load
          Q_total_rated COP_rated).PLR →
        0 < (evalDefrostActive psy OAT Outdoor_WBT Indoor_WBT Delivered_Load
          Q_total_rated COP_rated).PLF →
        0 ≤ (evalDefrostActive psy OAT Outdoor_WBT Indoor_WBT Delivered_Load
          Q_total_rated COP_rated).RTF) ∧
      (0 ≤ (evalDefrostInactive OAT Delivered_Load Q_total_rated COP_rated).PLR →
        0 < (evalDefrostInactive OAT Delivered_Load Q_total_rated COP_rated).PLF →
        0 ≤ (evalDefrostInactive OAT Delivered_Load Q_total_rated COP_rated).RTF) := by
  refine ⟨?_, ?_, ?_, ?_, ?_⟩
  · simp only [evalDefrostActive]
    exact le_trans (min_le_left _ _) (by norm_num)
  · simp only [evalDefrostActive]
    exact min_le_left _ _
  · simp only [evalDefrostInactive]
    exact min_le_left _ _
  · intro h1 h2
    simp only [evalDefrostActive] at h1 h2 ⊢
    exact le_min (by norm_num) (div_nonneg h1 h2.le)
  · intro h1 h2
    simp only [evalDefrostInactive] at h1 h2 ⊢
    exact le_min (by norm_num) (div_nonneg h1 h2.le)

/-- Witness for the amended C2, discharging the PLR ≥ 0 and PLF > 0
hypotheses at a concrete input. -/
theorem evaluate_clamps_witness :
    0 ≤ (evalDefrostActive (psyConst 0.004 0.003) 3 1 12 100 10 3).PLR ∧
      0 < (evalDefrostActive (psyConst 0.004 0.003) 3 1 12 100 10 3).PLF ∧
      0 ≤ (evalDefrostActive (psyConst 0.004 0.003) 3 1 12 100 10 3).RTF ∧
      0 ≤ (evalDefrostInactive 3 100 10 3).PLR ∧
      0 < (evalDefrostInactive 3 100 10 3).PLF ∧
      0 ≤ (evalDefrostInactive 3 100 10 3).RTF := by
  have hA1 : 0 ≤ (evalDefrostActive (psyConst 0.004 0.003) 3 1 12 100 10 3).PLR := by
    norm_num [evalDefrostActive, DefrostCalc, OutdoorCoildw, OutdoorCoilT,
      OutdoorPress, psyConst, TotCapTempModFac, TotCapFlowModFac, PLF_curve,
      DefrostEIRTempModFac, EERTempModFac, EERFlowModFac, max_def, min_def]
  have hA2 : 0 < (evalDefrostActive (psyConst 0.004 0.003) 3 1 12 100 10 3).PLF := by
    norm_num [evalDefrostActive, DefrostCalc, OutdoorCoildw, OutdoorCoilT,
      OutdoorPress, psyConst, TotCapTempModFac, TotCapFlowModFac, PLF_curve,
      DefrostEIRTempModFac, EERTempModFac, EERFlowModFac, max_def, min_def]
  have hB1 : 0 ≤ (evalDefrostInactive 3 100 10 3).PLR := by
    norm_num [evalDefrostInactive, TotCapTempModFac, TotCapFlowModFac, PLF_curve]
  have hB2 : 0 < (evalDefrostInactive 3 100 10 3).PLF := by
    norm_num [evalDefrostInactive, TotCapTempModFac, TotCapFlowModFac, PLF_curve]
  obtain ⟨-, -, -, h4, h5⟩ := evaluate_clamps (psyConst 0.004 0.003) 3 1 12 100 10 3
  exact ⟨hA1, hA2, h4 hA1 hA2, hB1, hB2, h5 hB1 hB2⟩

/-- Counterexample to C7 as stated: under the Timed strategy the
heating-capacity multiplier is negative at this concrete input, so it is
not in (0,1]. -/
theorem DefrostCalc_timed_cap_mult_neg :
    (DefrostCalc (psyConst 0.02 0.01) 3 1 DefrostStrategy.Timed none).1 < 0 := by
  norm_num [DefrostCalc, OutdoorCoildw, OutdoorCoilT, OutdoorPress, psyConst,
    max_def]

/-- Claim C7 (amended): for the OnDemand strategy, over all inputs, the
heating-capacity multiplier is in (0,1], the input-power multiplier is
in (0,1], and the defrost time fraction is in [0,1]. -/
theorem DefrostCalc_onDemand_bounds (psy : PsychroProvider)
    (Tdbo Twbo : ℚ) (tfrac_defrost : Option ℚ) :
    0 < (DefrostCalc psy Tdbo Twbo DefrostStrategy.OnDemand tfrac_defrost).1 ∧
      (DefrostCalc psy Tdbo Twbo DefrostStrategy.OnDemand tfrac_defrost).1 ≤ 1 ∧
      0 < (DefrostCalc psy Tdbo Twbo DefrostStrategy.OnDemand tfrac_defrost).2.1 ∧
      (DefrostCalc psy Tdbo Twbo DefrostStrategy.OnDemand tfrac_defrost).2.1 ≤ 1 ∧
      0 ≤ (DefrostCalc psy Tdbo Twbo DefrostStrategy.OnDemand tfrac_defrost).2.2 ∧
      (DefrostCalc psy Tdbo Twbo DefrostStrategy.OnDemand tfrac_defrost).2.2 ≤ 1 := by
  obtain ⟨h1, h2⟩ :=
    onDemand_tfrac_mem (OutdoorCoildw psy Tdbo Twbo) (OutdoorCoildw_pos psy Tdbo Twbo)
  simp only [DefrostCalc]
  refine ⟨?_, ?_, ?_, ?_, ?_, ?_⟩ <;> linarith

end DXHeatingCoil
